import Mathlib

/-!
Verification development for the `brow` browser-automation tool.

This file gives a shallow embedding of the connection and tab-session
lifecycle manager of the repository:

* `pkg/config` — `Config`, `Config.Validate`, `ResolvePort` (with Go's
  `strconv.Atoi` modelled by `Atoi`);
* `pkg/client` — the `Browser` session registry with its operations
  `New`, `Page`, `TabCount`, `Tabs`, `TabByIndex`, `NewTab`, `CloseTab`,
  `Context` and `Close`.

The imperative Go methods become state-threading functions: an operation
takes the `Browser` value and returns its Go result, the post-state, and
a trace of observable events (`Event`).  Events record exactly the
externally visible effects of the Go code: connecting/disconnecting the
remote allocator, cancelling a tab's `chromedp` context (which, per the
source's own comments in `CloseTab` and `Close`, closes that tab in the
browser), navigations issued through a page handle, and the acquisition
and release of the registry mutex (`mu.Lock`/`mu.RLock`/unlock).

Outcomes of external calls are oracle parameters: target discovery
(`chromedp.Targets`) becomes an `Except Unit (List Target)` argument of
`New`, and the success of the initial navigation performed by `NewTab`
becomes a `Bool` argument.  `context.Context` values are modelled by
numeric identifiers handed out by a counter.
-/

namespace Brow

/-! ## pkg/config -/

/-- Constants of `pkg/config`.  Durations are in nanoseconds, as Go's
`time.Duration` is an integer nanosecond count. -/
def DefaultPort : Int := 9222

def DefaultTimeout : Int := 30 * 1000000000

def MinPort : Int := 1

def MaxPort : Int := 65535

/-- `config.Config`: the CDP debugging port and the operation timeout
(`0` means no timeout). -/
structure Config where
  Port : Int
  Timeout : Int
  deriving Repr, DecidableEq

/-- The error taxonomy of the subsystem, one constructor per distinct
`fmt.Errorf` site reached by the embedded operations. -/
inductive BrowError where
  | configInvalidPort (port : Int)
  | configInvalidTimeout
  | targetsFailed
  | noTargetsAvailable
  | noPageTargets
  | indexOutOfRange (index : Int) (count : Nat)
  | navigateFailed
  deriving Repr, DecidableEq

/-- Both constructors produced by `Config.Validate` render the spec's
`ConfigInvalid` error. -/
def BrowError.isConfigInvalid : BrowError → Bool
  | .configInvalidPort _ => true
  | .configInvalidTimeout => true
  | _ => false

/-- `Config.Validate`: port must lie in `[MinPort, MaxPort]` and the
timeout must not be negative. -/
def Config.Validate (c : Config) : Except BrowError Unit :=
  if c.Port < MinPort ∨ c.Port > MaxPort then .error (.configInvalidPort c.Port)
  else if c.Timeout < 0 then .error .configInvalidTimeout
  else .ok ()

/-- One decimal digit's value. -/
def digitVal (c : Char) : Nat := c.toNat - 48

/-- Digit run of `strconv.Atoi`: consumes the whole character list,
failing on any non-digit. -/
def parseDigitsAux : List Char → Nat → Option Nat
  | [], acc => some acc
  | c :: cs, acc =>
    if c.isDigit then parseDigitsAux cs (10 * acc + digitVal c) else none

def MaxInt64 : Int := 9223372036854775807

def MinInt64 : Int := -9223372036854775808

/-- Go's `strconv.Atoi`: optional sign, then at least one digit, value
within the 64-bit `int` range; any other input is an error (`none`). -/
def Atoi (s : String) : Option Int :=
  let signed : Option Int :=
    match s.data with
    | [] => none
    | '+' :: cs => if cs = [] then none else (parseDigitsAux cs 0).map (fun n => (n : Int))
    | '-' :: cs => if cs = [] then none else (parseDigitsAux cs 0).map (fun n => -(n : Int))
    | cs => (parseDigitsAux cs 0).map (fun n => (n : Int))
  match signed with
  | some n => if MinInt64 ≤ n ∧ n ≤ MaxInt64 then some n else none
  | none => none

/-- `config.ResolvePort`: flag (if positive) > `BROW_DEBUG_PORT`
environment variable (if set and a positive integer) > `DefaultPort`.
`envPort` is the value of `os.Getenv("BROW_DEBUG_PORT")`, the empty
string meaning unset. -/
def ResolvePort (flagPort : Int) (envPort : String) : Int :=
  if flagPort > 0 then flagPort
  else if envPort ≠ "" then
    match Atoi envPort with
    | some port => if port > 0 then port else DefaultPort
    | none => DefaultPort
  else DefaultPort

/-- `config.Default`, parameterised by the environment variable it
reads. -/
def Config.Default (envPort : String) : Config :=
  { Port := ResolvePort 0 envPort, Timeout := DefaultTimeout }

/-! ## pkg/client: data model -/

/-- A discovered target as reported by `chromedp.Targets`; `type_` is
the Go field `Type` (`"page"`, `"service_worker"`, ...). -/
structure Target where
  targetID : String
  type_ : String
  title : String
  url : String
  deriving Repr, DecidableEq

/-- `client.tabContext`: one attached tab.  `ctx` identifies the
derived `chromedp` context; `hasDeadline` records whether a timeout was
composed onto it at attach time. -/
structure TabCtx where
  targetID : String
  title : String
  url : String
  ctx : Nat
  hasDeadline : Bool
  deriving Repr, DecidableEq

/-- `client.TabInfo`: the public per-tab metadata snapshot. -/
structure TabInfo where
  Index : Nat
  TargetID : String
  Title : String
  URL : String
  deriving Repr, DecidableEq

/-- `client.Page`: a session handle, carrying the tab's context and the
registry's config. -/
structure Page where
  ctx : Nat
  config : Config
  deriving Repr, DecidableEq

/-- `client.Browser`: the session registry.  `allocCtx` identifies the
allocator context; `nextCtx` is the modelling counter from which fresh
context identifiers are drawn. -/
structure Browser where
  config : Config
  allocCtx : Nat
  tabs : List TabCtx
  nextCtx : Nat
  deriving Repr, DecidableEq

/-- Observable effects of the embedded operations. -/
inductive Event where
  | connectAlloc
  | disconnectAlloc
  | cancelTempCtx
  | cancelTabCtx (ctx : Nat)
  | navigate (ctx : Nat) (url : String)
  | lockExclusive
  | lockShared
  | unlock
  deriving Repr, DecidableEq

/-! ## pkg/client: operations -/

/-- The filter applied by `New`'s discovery loop: `t.Type == "page"`. -/
def isPage (t : Target) : Bool := t.type_ == "page"

/-- The discovery loop of `client.New`: for each target of kind
`"page"`, in order, derive a context (`chromedp.NewContext` with
`WithTargetID`), composing a deadline when `timeout > 0`. -/
def attachLoop (timeout : Int) (nextCtx : Nat) : List Target → List TabCtx
  | [] => []
  | t :: ts =>
    if isPage t then
      { targetID := t.targetID, title := t.title, url := t.url,
        ctx := nextCtx, hasDeadline := timeout > 0 } :: attachLoop timeout (nextCtx + 1) ts
    else attachLoop timeout nextCtx ts

/-- `client.New`.  `cfgIn = none` is Go's `cfg == nil` (replaced by
`config.Default()`); `discover` is the outcome of `chromedp.Targets` on
the temporary query context.  Context identifiers: `0` is the allocator
context, tab contexts are numbered from `1`. -/
def New (envPort : String) (cfgIn : Option Config)
    (discover : Except Unit (List Target)) :
    Except BrowError Browser × List Event :=
  let cfg := cfgIn.getD (Config.Default envPort)
  match cfg.Validate with
  | .error e => (.error e, [])
  | .ok _ =>
    match discover with
    | .error _ =>
      (.error .targetsFailed, [.connectAlloc, .cancelTempCtx, .disconnectAlloc])
    | .ok targets =>
      if targets.length = 0 then
        (.error .noTargetsAvailable, [.connectAlloc, .cancelTempCtx, .disconnectAlloc])
      else
        let tabs := attachLoop cfg.Timeout 1 targets
        if tabs.length = 0 then
          (.error .noPageTargets, [.connectAlloc, .cancelTempCtx, .disconnectAlloc])
        else
          (.ok { config := cfg, allocCtx := 0, tabs := tabs, nextCtx := 1 + tabs.length },
           [.connectAlloc, .cancelTempCtx])

/-- `Browser.Page`: the session at index 0, or Go's `nil` (`none`) when
there are no tabs; takes the read lock. -/
def Browser.Page (b : Browser) : Option Brow.Page × Browser × List Event :=
  match b.tabs with
  | [] => (none, b, [.lockShared, .unlock])
  | t :: _ => (some { ctx := t.ctx, config := b.config }, b, [.lockShared, .unlock])

/-- `Browser.TabCount`: number of live sessions, under the read lock. -/
def Browser.TabCount (b : Browser) : Nat × Browser × List Event :=
  (b.tabs.length, b, [.lockShared, .unlock])

/-- `Browser.Tabs`: a fresh snapshot of per-tab metadata, in registry
order, under the read lock.  (The Go signature also returns an error
that is always `nil`.) -/
def Browser.Tabs (b : Browser) : List TabInfo × Browser × List Event :=
  (b.tabs.enum.map (fun it =>
      { Index := it.1, TargetID := it.2.targetID, Title := it.2.title, URL := it.2.url }),
   b, [.lockShared, .unlock])

/-- `Browser.TabByIndex`: the session at position `index`, or an
index-out-of-range error when `index < 0 || index >= len(b.tabs)`;
under the read lock. -/
def Browser.TabByIndex (b : Browser) (index : Int) :
    Except BrowError Brow.Page × Browser × List Event :=
  if h : index < 0 ∨ (b.tabs.length : Int) ≤ index then
    (.error (.indexOutOfRange index b.tabs.length), b, [.lockShared, .unlock])
  else
    (.ok { ctx := (b.tabs.get ⟨index.toNat, by omega⟩).ctx, config := b.config },
     b, [.lockShared, .unlock])

/-- `Browser.NewTab`: under the write lock, derive a fresh context from
the allocator (composing the configured timeout), append the new
session, then issue the initial navigation — to `url` when non-empty,
to `about:blank` otherwise — through the page handle while the lock is
still held.  `navOK` is the oracle outcome of that navigation; on
failure the just-appended session is truncated away and its context
cancelled before the error is returned. -/
def Browser.NewTab (b : Browser) (url : String) (navOK : Bool) :
    Except BrowError Brow.Page × Browser × List Event :=
  let tabCtx := b.nextCtx
  let newTab : TabCtx :=
    { targetID := "", title := "", url := url,
      ctx := tabCtx, hasDeadline := b.config.Timeout > 0 }
  let tabs1 := b.tabs ++ [newTab]
  let page : Brow.Page := { ctx := tabCtx, config := b.config }
  let navUrl := if url = "" then "about:blank" else url
  if navOK then
    (.ok page, { b with tabs := tabs1, nextCtx := b.nextCtx + 1 },
     [.lockExclusive, .navigate tabCtx navUrl, .unlock])
  else
    (.error .navigateFailed,
     { b with tabs := tabs1.dropLast, nextCtx := b.nextCtx + 1 },
     [.lockExclusive, .navigate tabCtx navUrl, .cancelTabCtx tabCtx, .unlock])

/-- `Browser.CloseTab`: under the write lock, validate the index,
cancel the tab's context (the source comments: "this closes the tab"),
and splice it out of the list (`append(b.tabs[:index], b.tabs[index+1:]...)`). -/
def Browser.CloseTab (b : Browser) (index : Int) :
    Except BrowError Unit × Browser × List Event :=
  if h : index < 0 ∨ (b.tabs.length : Int) ≤ index then
    (.error (.indexOutOfRange index b.tabs.length), b, [.lockExclusive, .unlock])
  else
    (.ok (),
     { b with tabs := b.tabs.take index.toNat ++ b.tabs.drop (index.toNat + 1) },
     [.lockExclusive, .cancelTabCtx (b.tabs.get ⟨index.toNat, by omega⟩).ctx, .unlock])

/-- `Browser.Context`: the raw context of the session at index 0, or
Go's `nil` (`none`) when there are no tabs; under the read lock. -/
def Browser.Context (b : Browser) : Option Nat × Browser × List Event :=
  match b.tabs with
  | [] => (none, b, [.lockShared, .unlock])
  | t :: _ => (some t.ctx, b, [.lockShared, .unlock])

/-- `Browser.Close`: under the write lock, cancel only the allocator
context — deliberately none of the tab contexts — leaving the tab list
untouched, and return `nil`. -/
def Browser.Close (b : Browser) : Except BrowError Unit × Browser × List Event :=
  (.ok (), b, [.lockExclusive, .disconnectAlloc, .unlock])

instance {ε α : Type} [DecidableEq ε] [DecidableEq α] : DecidableEq (Except ε α)
  | .ok a, .ok b =>
    if h : a = b then .isTrue (by rw [h]) else .isFalse (fun hc => h (by injection hc))
  | .ok _, .error _ => .isFalse (fun hc => Except.noConfusion hc)
  | .error _, .ok _ => .isFalse (fun hc => Except.noConfusion hc)
  | .error e, .error f =>
    if h : e = f then .isTrue (by rw [h]) else .isFalse (fun hc => h (by injection hc))

/-! ## Trace predicates -/

/-- Does this event cancel a tab context (i.e. close that tab in the
browser)? -/
def isCancelTab : Event → Bool
  | .cancelTabCtx _ => true
  | _ => false

/-- Is this event a navigation issued through a page handle? -/
def isNavigate : Event → Bool
  | .navigate _ _ => true
  | _ => false

def isConnectAlloc : Event → Bool
  | .connectAlloc => true
  | _ => false

def isDisconnectAlloc : Event → Bool
  | .disconnectAlloc => true
  | _ => false

/-- Is this event an acquisition or release of the registry mutex? -/
def isLockEvent : Event → Bool
  | .lockExclusive => true
  | .lockShared => true
  | .unlock => true
  | _ => false

/-- Number of events in the trace satisfying `p`. -/
def countEvent (p : Event → Bool) (tr : List Event) : Nat := (tr.filter p).length

/-- Scans a trace tracking the mutex hold depth, returning `true` iff
some navigation event occurs while the depth is positive. -/
def navUnderLockAux : List Event → Nat → Bool
  | [], _ => false
  | .lockExclusive :: es, d => navUnderLockAux es (d + 1)
  | .lockShared :: es, d => navUnderLockAux es (d + 1)
  | .unlock :: es, d => navUnderLockAux es (d - 1)
  | .navigate _ _ :: es, d => decide (0 < d) || navUnderLockAux es d
  | _ :: es, d => navUnderLockAux es d

/-- `true` iff the trace performs a navigation while holding the
registry's lock. -/
def navUnderLock (tr : List Event) : Bool := navUnderLockAux tr 0

/-! ## Concrete fixtures -/

/-- A valid config (default port, no timeout). -/
def exCfg : Config := { Port := 9222, Timeout := 0 }

def exTab0 : TabCtx :=
  { targetID := "T0", title := "home", url := "http://a.test", ctx := 1, hasDeadline := false }

def exTab1 : TabCtx :=
  { targetID := "T1", title := "docs", url := "http://b.test", ctx := 2, hasDeadline := false }

def exTab2 : TabCtx :=
  { targetID := "T2", title := "news", url := "http://c.test", ctx := 3, hasDeadline := false }

/-- A one-tab registry. -/
def exB1 : Browser := { config := exCfg, allocCtx := 0, tabs := [exTab0], nextCtx := 2 }

/-- A three-tab registry. -/
def exB3 : Browser :=
  { config := exCfg, allocCtx := 0, tabs := [exTab0, exTab1, exTab2], nextCtx := 4 }

/-- Discovery fixture: two page targets around one service worker. -/
def exTargets : List Target :=
  [ { targetID := "T0", type_ := "page", title := "home", url := "http://a.test" },
    { targetID := "W0", type_ := "service_worker", title := "", url := "http://w.test" },
    { targetID := "T1", type_ := "page", title := "docs", url := "http://b.test" } ]

example : (New "" (some exCfg) (.ok exTargets)).1 =
    .ok { config := exCfg, allocCtx := 0,
          tabs := [ { targetID := "T0", title := "home", url := "http://a.test",
                      ctx := 1, hasDeadline := false },
                    { targetID := "T1", title := "docs", url := "http://b.test",
                      ctx := 2, hasDeadline := false } ],
          nextCtx := 3 } := by decide

example : ResolvePort 0 "9223" = 9223 := by decide

example : ResolvePort 8080 "9223" = 8080 := by decide

example : ResolvePort 0 "abc" = 9222 := by decide

/-! ## Helper lemmas -/

/-- `New` either fails before connecting (empty trace), fails after
connecting (trace ending in the allocator disconnect), or succeeds with
the allocator left connected. -/
theorem New_cases (envPort : String) (cfgIn : Option Config)
    (disc : Except Unit (List Target)) :
    (∃ e, New envPort cfgIn disc = (.error e, [])) ∨
    (∃ e, New envPort cfgIn disc =
      (.error e, [.connectAlloc, .cancelTempCtx, .disconnectAlloc])) ∨
    (∃ br, New envPort cfgIn disc = (.ok br, [.connectAlloc, .cancelTempCtx])) := by
  simp only [New]
  split
  · exact .inl ⟨_, rfl⟩
  · split
    · exact .inr (.inl ⟨_, rfl⟩)
    · split
      · exact .inr (.inl ⟨_, rfl⟩)
      · split
        · exact .inr (.inl ⟨_, rfl⟩)
        · exact .inr (.inr ⟨_, rfl⟩)

/-- Unfolding of `New` on a supplied valid config and a successful
discovery. -/
theorem New_ok_targets (envPort : String) (cfg : Config) (targets : List Target)
    (hv : cfg.Validate = .ok ()) :
    New envPort (some cfg) (.ok targets) =
      if targets.length = 0 then
        (.error .noTargetsAvailable, [.connectAlloc, .cancelTempCtx, .disconnectAlloc])
      else if (attachLoop cfg.Timeout 1 targets).length = 0 then
        (.error .noPageTargets, [.connectAlloc, .cancelTempCtx, .disconnectAlloc])
      else
        (.ok { config := cfg, allocCtx := 0, tabs := attachLoop cfg.Timeout 1 targets,
               nextCtx := 1 + (attachLoop cfg.Timeout 1 targets).length },
         [.connectAlloc, .cancelTempCtx]) := by
  simp only [New, Option.getD_some, hv]

/-- The discovery loop attaches exactly the `page`-kind targets, keeping
their target ids in discovery order. -/
theorem attachLoop_map_targetID (timeout : Int) (ts : List Target) (n : Nat) :
    (attachLoop timeout n ts).map TabCtx.targetID =
      (ts.filter isPage).map Target.targetID := by
  induction ts generalizing n with
  | nil => rfl
  | cons t ts ih =>
    by_cases h : isPage t = true
    · simp [attachLoop, h, List.filter_cons, ih]
    · simp [attachLoop, h, List.filter_cons, ih]

theorem attachLoop_length (timeout : Int) (ts : List Target) (n : Nat) :
    (attachLoop timeout n ts).length = (ts.filter isPage).length := by
  have h := congrArg List.length (attachLoop_map_targetID timeout ts n)
  simpa using h

/-- The `Tabs` snapshot lists the registry's target ids in registry
order. -/
theorem Tabs_map_targetID (b : Browser) :
    b.Tabs.1.map TabInfo.TargetID = b.tabs.map TabCtx.targetID := by
  have h : b.Tabs.1.map TabInfo.TargetID
      = (b.tabs.enum.map Prod.snd).map TabCtx.targetID := by
    simp only [Browser.Tabs, List.map_map]
    rfl
  rw [h, List.enum_map_snd]

/-- Entry `j` of the `Tabs` snapshot carries the target id of the
session at position `j`. -/
theorem Tabs_getElem_targetID (b : Browser) (j : Nat) :
    (b.Tabs.1[j]?).map TabInfo.TargetID = (b.tabs[j]?).map TabCtx.targetID := by
  simp only [Browser.Tabs, List.getElem?_map, List.getElem?_enum, Option.map_map]
  rfl

/-! ## C7: config validation -/

/-- C7: `Validate(config)` succeeds exactly for configs whose port lies in
`[1, 65535]` and whose timeout is non-negative, and it fails with a
`ConfigInvalid` error exactly when the port is below 1, above 65535, or the
timeout is negative. -/
theorem validate_characterisation (c : Config) :
    (c.Validate = .ok () ↔ (1 ≤ c.Port ∧ c.Port ≤ 65535 ∧ 0 ≤ c.Timeout)) ∧
    ((c.Port < 1 ∨ c.Port > 65535 ∨ c.Timeout < 0) ↔
      ∃ e, c.Validate = .error e ∧ e.isConfigInvalid = true) := by
  unfold Config.Validate MinPort MaxPort
  split_ifs with h1 h2
  · constructor
    · constructor
      · intro h; simp at h
      · intro h; omega
    · constructor
      · intro _; exact ⟨_, rfl, rfl⟩
      · intro _; omega
  · constructor
    · constructor
      · intro h; simp at h
      · intro h; omega
    · constructor
      · intro _; exact ⟨_, rfl, rfl⟩
      · intro _; omega
  · constructor
    · constructor
      · intro _; omega
      · intro _; rfl
    · constructor
      · intro h; omega
      · rintro ⟨e, he, _⟩; simp at he

/-- C7 witness: the default port with zero timeout validates; port 70000 is
rejected with a `ConfigInvalid` error. -/
theorem validate_characterisation_witness :
    Config.Validate { Port := 9222, Timeout := 0 } = .ok () ∧
    ∃ e, Config.Validate { Port := 70000, Timeout := 0 } = .error e ∧
      e.isConfigInvalid = true := by
  constructor
  · exact (validate_characterisation { Port := 9222, Timeout := 0 }).1.mpr (by decide)
  · exact (validate_characterisation { Port := 70000, Timeout := 0 }).2.mp (by decide)

/-! ## C8: port resolution -/

/-- C8 counterexample: the claim says the explicit port is returned whenever
it is non-zero, but `ResolvePort` only honours a *positive* flag value: the
non-zero explicit port `-1` is ignored and the default is returned. -/
theorem resolvePort_negative_explicit :
    (-1 : Int) ≠ 0 ∧ ResolvePort (-1) "" = 9222 ∧ ResolvePort (-1) "" ≠ -1 := by
  decide

/-- C8 (amended): port resolution returns the explicit port whenever it is
positive; otherwise, if `BROW_DEBUG_PORT` parses as a positive integer, that
value is returned; otherwise the built-in default 9222 is returned. -/
theorem resolvePort_precedence (flagPort : Int) (envPort : String) :
    (0 < flagPort → ResolvePort flagPort envPort = flagPort) ∧
    (flagPort ≤ 0 → ∀ p, Atoi envPort = some p → 0 < p →
      ResolvePort flagPort envPort = p) ∧
    (flagPort ≤ 0 → (∀ p, Atoi envPort = some p → p ≤ 0) →
      ResolvePort flagPort envPort = 9222) := by
  refine ⟨fun h => by simp [ResolvePort, h], ?_, ?_⟩
  · intro hf p hA hp
    have hnot : ¬ flagPort > 0 := by omega
    by_cases he : envPort = ""
    · subst he
      rw [(by decide : Atoi "" = none)] at hA
      exact Option.noConfusion hA
    · simp [ResolvePort, hnot, he, hA, hp]
  · intro hf hp
    have hnot : ¬ flagPort > 0 := by omega
    by_cases he : envPort = ""
    · simp [ResolvePort, hnot, he, DefaultPort]
    · cases hA : Atoi envPort with
      | none => simp [ResolvePort, hnot, he, hA, DefaultPort]
      | some p =>
        have hple := hp p hA
        simp [ResolvePort, hnot, he, hA, DefaultPort]
        omega

/-- C8 witness: a positive flag wins over the environment; with no usable
flag a positive `BROW_DEBUG_PORT` wins; with neither, 9222 results. -/
theorem resolvePort_precedence_witness :
    ResolvePort 8080 "9223" = 8080 ∧
    ResolvePort 0 "9223" = 9223 ∧
    ResolvePort 0 "abc" = 9222 := by
  refine ⟨(resolvePort_precedence 8080 "9223").1 (by decide),
          (resolvePort_precedence 0 "9223").2.1 (by decide) 9223 (by decide) (by decide),
          (resolvePort_precedence 0 "abc").2.2 (by decide) ?_⟩
  intro p hp
  rw [(by decide : Atoi "abc" = none)] at hp
  exact Option.noConfusion hp

/-! ## C10: accessors on an empty registry -/

/-- C10: `Page()` and `Context()` are total: on a registry with no tabs —
such as one obtained by closing the last tab — they return `none` (Go
`nil`), and on a registry with at least one tab they return the session
(respectively the context) at index 0. -/
theorem page_context_total (b : Browser) :
    (b.tabs = [] → b.Page.1 = none ∧ b.Context.1 = none) ∧
    (∀ t ts, b.tabs = t :: ts →
      b.Page.1 = some { ctx := t.ctx, config := b.config } ∧
      b.Context.1 = some t.ctx) ∧
    (∀ t, b.tabs = [t] →
      (b.CloseTab 0).2.1.Page.1 = none ∧ (b.CloseTab 0).2.1.Context.1 = none) := by
  refine ⟨?_, ?_, ?_⟩
  · intro h
    exact ⟨by simp [Browser.Page, h], by simp [Browser.Context, h]⟩
  · intro t ts h
    exact ⟨by simp [Browser.Page, h], by simp [Browser.Context, h]⟩
  · intro t h
    have hc : (b.CloseTab 0).2.1.tabs = [] := by
      simp [Browser.CloseTab, h]
    exact ⟨by simp [Browser.Page, hc], by simp [Browser.Context, hc]⟩

/-- C10 witness: on the one-tab registry, `Page` returns the index-0
session; after `CloseTab(0)` it returns `none`. -/
theorem page_context_total_witness :
    exB1.Page.1 = some { ctx := exTab0.ctx, config := exB1.config } ∧
    exB1.Context.1 = some exTab0.ctx ∧
    (exB1.CloseTab 0).2.1.Page.1 = none ∧
    (exB1.CloseTab 0).2.1.Context.1 = none := by
  refine ⟨((page_context_total exB1).2.1 exTab0 [] rfl).1,
          ((page_context_total exB1).2.1 exTab0 [] rfl).2,
          ((page_context_total exB1).2.2 exTab0 rfl).1,
          ((page_context_total exB1).2.2 exTab0 rfl).2⟩

/-! ## C1: detachment never closes a tab -/

/-- C1 counterexample: `CloseTab` is not the only operation that instructs
the browser to close a tab — a `NewTab` whose initial navigation fails
cancels the just-created tab context during rollback, and the source's own
comments state that cancelling a tab context closes that tab in Chrome. -/
theorem newTab_rollback_cancels_context :
    (exB1.NewTab "http://example.test" false).1 = .error .navigateFailed ∧
    Event.cancelTabCtx 2 ∈ (exB1.NewTab "http://example.test" false).2.2 := by
  decide

/-- C1 (amended): `Close()` disconnects the allocator exactly once, leaves
the registry and its tab list unchanged, and cancels no tab context; no
read accessor and no successful `NewTab` cancels a tab context either.  The
operations that do instruct the browser to close a tab are exactly an
explicit `CloseTab(i)` on a valid index and the rollback of a `NewTab`
whose initial navigation failed. -/
theorem close_disconnects_without_closing (b : Browser) (url : String) (i : Int) :
    (b.Close.1 = .ok () ∧ b.Close.2.1 = b ∧
     countEvent isDisconnectAlloc b.Close.2.2 = 1 ∧
     countEvent isCancelTab b.Close.2.2 = 0) ∧
    countEvent isCancelTab (b.NewTab url true).2.2 = 0 ∧
    countEvent isCancelTab (b.NewTab url false).2.2 = 1 ∧
    ((i < 0 ∨ (b.tabs.length : Int) ≤ i) → countEvent isCancelTab (b.CloseTab i).2.2 = 0) ∧
    (¬(i < 0 ∨ (b.tabs.length : Int) ≤ i) → countEvent isCancelTab (b.CloseTab i).2.2 = 1) ∧
    countEvent isCancelTab (b.TabByIndex i).2.2 = 0 ∧
    countEvent isCancelTab b.Page.2.2 = 0 ∧
    countEvent isCancelTab b.Tabs.2.2 = 0 ∧
    countEvent isCancelTab b.TabCount.2.2 = 0 ∧
    countEvent isCancelTab b.Context.2.2 = 0 := by
  refine ⟨⟨rfl, rfl, rfl, rfl⟩, ?_, ?_, ?_, ?_, ?_, ?_, ?_, rfl, ?_⟩
  · simp [Browser.NewTab, countEvent, isCancelTab]
  · simp [Browser.NewTab, countEvent, isCancelTab]
  · intro h
    simp [Browser.CloseTab, dif_pos h, countEvent, isCancelTab]
  · intro h
    simp [Browser.CloseTab, dif_neg h, countEvent, isCancelTab]
  · unfold Browser.TabByIndex
    split <;> rfl
  · obtain ⟨c, a, tabs, n⟩ := b
    cases tabs <;> rfl
  · obtain ⟨c, a, tabs, n⟩ := b
    cases tabs <;> rfl
  · obtain ⟨c, a, tabs, n⟩ := b
    cases tabs <;> rfl

/-- C1 witness: the amended statement applied to the three-tab registry. -/
theorem close_disconnects_without_closing_witness :
    countEvent isCancelTab (exB3.CloseTab 3).2.2 = 0 ∧
    countEvent isCancelTab (exB3.CloseTab 1).2.2 = 1 ∧
    exB3.Close.2.1 = exB3 := by
  refine ⟨(close_disconnects_without_closing exB3 "" 3).2.2.2.1 (by decide),
          (close_disconnects_without_closing exB3 "" 1).2.2.2.2.1 (by decide),
          (close_disconnects_without_closing exB3 "" 0).1.2.1⟩

/-! ## C3: rollback of partial construction -/

/-- C3: every failing `New` leaves no connected allocator behind (each
allocator connect in its trace is matched by a disconnect), while a
successful `New` leaves the allocator connected and never disconnected; a
`NewTab` whose initial navigation fails reports the error, restores the tab
list — so `TabCount()` is unchanged — and cancels the just-appended
session's context. -/
theorem construction_rollback (envPort : String) (cfgIn : Option Config)
    (disc : Except Unit (List Target)) (b : Browser) (url : String) :
    (∀ e, (New envPort cfgIn disc).1 = .error e →
      countEvent isConnectAlloc (New envPort cfgIn disc).2 =
        countEvent isDisconnectAlloc (New envPort cfgIn disc).2) ∧
    (∀ br, (New envPort cfgIn disc).1 = .ok br →
      countEvent isConnectAlloc (New envPort cfgIn disc).2 = 1 ∧
      countEvent isDisconnectAlloc (New envPort cfgIn disc).2 = 0) ∧
    ((b.NewTab url false).1 = .error .navigateFailed ∧
     (b.NewTab url false).2.1.tabs = b.tabs ∧
     (b.NewTab url false).2.1.TabCount.1 = b.TabCount.1 ∧
     Event.cancelTabCtx b.nextCtx ∈ (b.NewTab url false).2.2) := by
  refine ⟨?_, ?_, ?_, ?_, ?_, ?_⟩
  · intro e he
    rcases New_cases envPort cfgIn disc with ⟨e', h⟩ | ⟨e', h⟩ | ⟨br, h⟩
    · rw [h]; rfl
    · rw [h]; rfl
    · rw [h] at he; simp at he
  · intro br hbr
    rcases New_cases envPort cfgIn disc with ⟨e', h⟩ | ⟨e', h⟩ | ⟨br', h⟩
    · rw [h] at hbr; simp at hbr
    · rw [h] at hbr; simp at hbr
    · rw [h]; exact ⟨rfl, rfl⟩
  · rfl
  · simp [Browser.NewTab]
  · simp [Browser.NewTab, Browser.TabCount]
  · simp [Browser.NewTab]

/-- C3 witness: a discovery returning zero targets makes `New` fail with a
balanced connect/disconnect trace, and a failed `NewTab` on the one-tab
registry leaves its single tab in place. -/
theorem construction_rollback_witness :
    countEvent isConnectAlloc (New "" (some exCfg) (.ok [])).2 =
      countEvent isDisconnectAlloc (New "" (some exCfg) (.ok [])).2 ∧
    (exB1.NewTab "http://example.test" false).2.1.tabs = exB1.tabs := by
  refine ⟨(construction_rollback "" (some exCfg) (.ok []) exB1 "x").1
            .noTargetsAvailable (by decide),
          (construction_rollback "" (some exCfg) (.ok []) exB1
            "http://example.test").2.2.2.1⟩

/-! ## C9: locking discipline -/

/-- C9 counterexample: `NewTab` performs its initial navigation while the
registry's exclusive lock is held, and `New` populates the initial tab list
without taking the lock at all — contradicting both halves of the claim. -/
theorem newTab_navigates_under_lock :
    navUnderLock (exB1.NewTab "http://example.test" true).2.2 = true ∧
    Event.lockExclusive ∉ (New "" (some exCfg) (.ok exTargets)).2 := by
  decide

/-- C9 (amended): `NewTab` and `CloseTab` hold the exclusive lock for their
whole execution and the read accessors hold the shared lock; `NewTab` is
the one operation that issues a navigation, and it does so while still
holding the exclusive lock (making the append-then-rollback atomic); `New`
builds the initial tab list before the registry is shared, without touching
the lock, and issues no navigation. -/
theorem locking_discipline (b : Browser) (url : String) (navOK : Bool) (i : Int)
    (envPort : String) (cfgIn : Option Config) (disc : Except Unit (List Target)) :
    ((b.NewTab url navOK).2.2.head? = some .lockExclusive ∧
     (b.NewTab url navOK).2.2.getLast? = some .unlock ∧
     navUnderLock (b.NewTab url navOK).2.2 = true) ∧
    ((b.CloseTab i).2.2.head? = some .lockExclusive ∧
     (b.CloseTab i).2.2.getLast? = some .unlock ∧
     countEvent isNavigate (b.CloseTab i).2.2 = 0) ∧
    b.Close.2.2.head? = some .lockExclusive ∧
    b.TabCount.2.2 = [.lockShared, .unlock] ∧
    b.Tabs.2.2 = [.lockShared, .unlock] ∧
    (b.TabByIndex i).2.2 = [.lockShared, .unlock] ∧
    b.Page.2.2 = [.lockShared, .unlock] ∧
    b.Context.2.2 = [.lockShared, .unlock] ∧
    countEvent isLockEvent (New envPort cfgIn disc).2 = 0 ∧
    countEvent isNavigate (New envPort cfgIn disc).2 = 0 := by
  refine ⟨?_, ?_, rfl, rfl, rfl, ?_, ?_, ?_, ?_, ?_⟩
  · cases navOK <;>
      exact ⟨rfl, by simp [Browser.NewTab], by simp [Browser.NewTab, navUnderLock,
        navUnderLockAux]⟩
  · unfold Browser.CloseTab
    split <;> exact ⟨rfl, rfl, rfl⟩
  · unfold Browser.TabByIndex
    split <;> rfl
  · obtain ⟨c, a, tabs, n⟩ := b
    cases tabs <;> rfl
  · obtain ⟨c, a, tabs, n⟩ := b
    cases tabs <;> rfl
  · rcases New_cases envPort cfgIn disc with ⟨e, h⟩ | ⟨e, h⟩ | ⟨br, h⟩ <;> rw [h] <;> rfl
  · rcases New_cases envPort cfgIn disc with ⟨e, h⟩ | ⟨e, h⟩ | ⟨br, h⟩ <;> rw [h] <;> rfl

/-- C9 witness: the amended locking discipline at concrete inputs. -/
theorem locking_discipline_witness :
    navUnderLock (exB3.NewTab "" true).2.2 = true ∧
    countEvent isLockEvent (New "" (some exCfg) (.ok exTargets)).2 = 0 := by
  refine ⟨(locking_discipline exB3 "" true 0 "" (some exCfg) (.ok exTargets)).1.2.2,
          (locking_discipline exB3 "" true 0 "" (some exCfg)
            (.ok exTargets)).2.2.2.2.2.2.2.2.1⟩

/-! ## C2: discovery and filtering in New -/

/-- C2: a successful `New` yields a registry with exactly one session per
discovered `page`-kind target, in discovery order — `TabCount()` is the
number of page targets and `Tabs()` lists exactly those targets in order —
while a discovery of zero targets fails with `NoTargetsAvailable` and a
discovery with targets but no page target fails with `NoPageTargets`. -/
theorem New_filters_page_targets (envPort : String) (cfg : Config)
    (targets : List Target) (hv : cfg.Validate = .ok ()) :
    (targets = [] → (New envPort (some cfg) (.ok targets)).1 = .error .noTargetsAvailable) ∧
    (targets ≠ [] → targets.filter isPage = [] →
      (New envPort (some cfg) (.ok targets)).1 = .error .noPageTargets) ∧
    (∀ b, (New envPort (some cfg) (.ok targets)).1 = .ok b →
      b.tabs.map TabCtx.targetID = (targets.filter isPage).map Target.targetID ∧
      b.TabCount.1 = (targets.filter isPage).length ∧
      b.Tabs.1.map TabInfo.TargetID = (targets.filter isPage).map Target.targetID) := by
  rw [New_ok_targets envPort cfg targets hv]
  refine ⟨?_, ?_, ?_⟩
  · intro h
    subst h
    rfl
  · intro hne hpage
    have hlen : targets.length ≠ 0 := fun h => hne (List.length_eq_zero.mp h)
    have hloop : (attachLoop cfg.Timeout 1 targets).length = 0 := by
      rw [attachLoop_length, hpage]
      rfl
    simp [hlen, hloop]
  · intro b hb
    by_cases hlen : targets.length = 0
    · simp [hlen] at hb
    · by_cases hloop : (attachLoop cfg.Timeout 1 targets).length = 0
      · simp [hlen, hloop] at hb
      · simp only [hlen, hloop, if_false] at hb
        injection hb with hb'
        subst hb'
        refine ⟨attachLoop_map_targetID _ _ _, attachLoop_length _ _ _, ?_⟩
        rw [Tabs_map_targetID]
        exact attachLoop_map_targetID _ _ _

/-- C2 witness: against a discovery of 2 page targets and 1 service worker,
`New` yields `TabCount() == 2` and `Tabs()` lists exactly the two page
targets in order; against zero targets it fails with `NoTargetsAvailable`. -/
theorem New_filters_page_targets_witness :
    (New "" (some exCfg) (.ok [])).1 = .error .noTargetsAvailable ∧
    ∃ b, (New "" (some exCfg) (.ok exTargets)).1 = .ok b ∧
      b.TabCount.1 = 2 ∧
      b.Tabs.1.map TabInfo.TargetID = ["T0", "T1"] := by
  constructor
  · exact (New_filters_page_targets "" exCfg [] (by decide)).1 rfl
  · have hb : (New "" (some exCfg) (.ok exTargets)).1 =
        .ok { config := exCfg, allocCtx := 0,
              tabs := [ { targetID := "T0", title := "home", url := "http://a.test",
                          ctx := 1, hasDeadline := false },
                        { targetID := "T1", title := "docs", url := "http://b.test",
                          ctx := 2, hasDeadline := false } ],
              nextCtx := 3 } := by decide
    have h := (New_filters_page_targets "" exCfg exTargets (by decide)).2.2 _ hb
    exact ⟨_, hb, by rw [h.2.1]; decide, by rw [h.2.2]; decide⟩

/-! ## C4: CloseTab shifts trailing indices down -/

/-- C4: on a registry with a valid index `i`, `CloseTab(i)` succeeds,
`TabCount()` drops by one, every session at an index `j < i` stays at `j`,
and every session at an index `j > i` moves to `j - 1`. -/
theorem closeTab_shifts_indices (b : Browser) (i : Nat) (h : i < b.tabs.length) :
    (b.CloseTab i).1 = .ok () ∧
    (b.CloseTab i).2.1.tabs.length = b.tabs.length - 1 ∧
    (∀ j, j < i → (b.CloseTab i).2.1.tabs[j]? = b.tabs[j]?) ∧
    (∀ j, i < j → j < b.tabs.length → (b.CloseTab i).2.1.tabs[j - 1]? = b.tabs[j]?) := by
  have hcond : ¬(((i : Int)) < 0 ∨ (b.tabs.length : Int) ≤ (i : Int)) := by omega
  have htn : ((i : Int)).toNat = i := by omega
  have htabs : (b.CloseTab i).2.1.tabs = b.tabs.eraseIdx i := by
    simp only [Browser.CloseTab, dif_neg hcond, htn]
    rw [List.eraseIdx_eq_take_drop_succ]
  refine ⟨?_, ?_, ?_, ?_⟩
  · simp only [Browser.CloseTab, dif_neg hcond]
  · rw [htabs, List.length_eraseIdx]
    simp [h]
  · intro j hj
    rw [htabs, List.getElem?_eraseIdx_of_lt _ _ _ hj]
  · intro j hij hjlen
    rw [htabs, List.getElem?_eraseIdx_of_ge _ _ _ (by omega)]
    congr 1
    omega

/-- C4 witness: closing index 0 of the three-tab registry leaves two tabs,
with the former index-1 and index-2 sessions now at indices 0 and 1. -/
theorem closeTab_shifts_indices_witness :
    (exB3.CloseTab 0).1 = .ok () ∧
    (exB3.CloseTab 0).2.1.tabs.length = 2 ∧
    (exB3.CloseTab 0).2.1.tabs[0]? = exB3.tabs[1]? ∧
    (exB3.CloseTab 0).2.1.tabs[1]? = exB3.tabs[2]? := by
  have h := closeTab_shifts_indices exB3 0 (by decide)
  refine ⟨h.1, h.2.1.trans (by decide), ?_, ?_⟩
  · exact h.2.2.2 1 (by decide) (by decide)
  · exact h.2.2.2 2 (by decide) (by decide)

/-! ## C5: NewTab appends exactly one session -/

/-- C5: a successful `NewTab(url)` appends exactly one session at the end
of the tab list, increasing `TabCount()` by exactly one, for empty and
non-empty `url` alike; with an empty `url` the initial navigation goes to
the blank page `about:blank` so the tab becomes addressable, and with a
non-empty `url` it goes to `url`. -/
theorem newTab_appends_one (b : Browser) (url : String) :
    (∃ p, (b.NewTab url true).1 = .ok p) ∧
    (∃ t, (b.NewTab url true).2.1.tabs = b.tabs ++ [t]) ∧
    (b.NewTab url true).2.1.TabCount.1 = b.TabCount.1 + 1 ∧
    (url = "" → (b.NewTab url true).2.2 =
      [.lockExclusive, .navigate b.nextCtx "about:blank", .unlock]) ∧
    (url ≠ "" → (b.NewTab url true).2.2 =
      [.lockExclusive, .navigate b.nextCtx url, .unlock]) := by
  refine ⟨⟨_, rfl⟩, ⟨_, rfl⟩, ?_, ?_, ?_⟩
  · simp [Browser.NewTab, Browser.TabCount]
  · intro h
    simp [Browser.NewTab, h]
  · intro h
    simp [Browser.NewTab, h]

/-- C5 witness: `NewTab` on the one-tab registry with an empty and with a
non-empty url, each adding exactly one session. -/
theorem newTab_appends_one_witness :
    (exB1.NewTab "" true).2.1.TabCount.1 = exB1.TabCount.1 + 1 ∧
    (exB1.NewTab "" true).2.2 =
      [.lockExclusive, .navigate exB1.nextCtx "about:blank", .unlock] ∧
    (exB1.NewTab "http://example.test" true).2.2 =
      [.lockExclusive, .navigate exB1.nextCtx "http://example.test", .unlock] := by
  refine ⟨(newTab_appends_one exB1 "").2.2.1,
          (newTab_appends_one exB1 "").2.2.2.1 rfl,
          (newTab_appends_one exB1 "http://example.test").2.2.2.2 (by decide)⟩

/-! ## C6: index validation -/

/-- C6: `TabByIndex(i)` and `CloseTab(i)` fail with `IndexOutOfRange`
exactly when `i < 0` or `i >= TabCount()`; for a valid `i`, `TabByIndex(i)`
leaves the registry unchanged and returns the session at position `i` —
the one whose target id is `Tabs()[i].targetId`. -/
theorem tabByIndex_bounds (b : Browser) (i : Int) :
    ((b.TabByIndex i).1 = .error (.indexOutOfRange i b.tabs.length) ↔
      (i < 0 ∨ (b.tabs.length : Int) ≤ i)) ∧
    ((b.CloseTab i).1 = .error (.indexOutOfRange i b.tabs.length) ↔
      (i < 0 ∨ (b.tabs.length : Int) ≤ i)) ∧
    (b.TabByIndex i).2.1 = b ∧
    (0 ≤ i → i < (b.tabs.length : Int) →
      ∃ p, (b.TabByIndex i).1 = .ok p ∧
        some p.ctx = (b.tabs[i.toNat]?).map TabCtx.ctx ∧
        (b.Tabs.1[i.toNat]?).map TabInfo.TargetID =
          (b.tabs[i.toNat]?).map TabCtx.targetID) := by
  refine ⟨?_, ?_, ?_, ?_⟩
  · unfold Browser.TabByIndex
    split
    · next hc => simpa using hc
    · next hc => simp [hc]
  · unfold Browser.CloseTab
    split
    · next hc => simpa using hc
    · next hc => simp [hc]
  · unfold Browser.TabByIndex
    split <;> rfl
  · intro h0 hlt
    have hc : ¬(i < 0 ∨ (b.tabs.length : Int) ≤ i) := by omega
    have hn : i.toNat < b.tabs.length := by omega
    refine ⟨{ ctx := (b.tabs.get ⟨i.toNat, hn⟩).ctx, config := b.config },
            ?_, ?_, Tabs_getElem_targetID b i.toNat⟩
    · simp only [Browser.TabByIndex, dif_neg hc]
    · simp [List.getElem?_eq_getElem hn]

/-- C6 witness: on the three-tab registry, indices `-1` and `3` are
rejected by both operations and index `1` returns the session whose target
id matches the snapshot entry. -/
theorem tabByIndex_bounds_witness :
    (exB3.TabByIndex (-1)).1 = .error (.indexOutOfRange (-1) 3) ∧
    (exB3.CloseTab 3).1 = .error (.indexOutOfRange 3 3) ∧
    (exB3.TabByIndex 1).2.1 = exB3 ∧
    (∃ p, (exB3.TabByIndex 1).1 = .ok p ∧
      some p.ctx = (exB3.tabs[1]?).map TabCtx.ctx ∧
      (exB3.Tabs.1[1]?).map TabInfo.TargetID = (exB3.tabs[1]?).map TabCtx.targetID) := by
  refine ⟨(tabByIndex_bounds exB3 (-1)).1.mpr (by decide),
          (tabByIndex_bounds exB3 3).2.1.mpr (by decide),
          (tabByIndex_bounds exB3 1).2.2.1,
          (tabByIndex_bounds exB3 1).2.2.2 (by decide) (by decide)⟩

end Brow
